import Mathlib

/-!
Shallow embedding of `stock/stock_exchange_holidays.py`.

The source keeps, per exchange, two derived indexes built once at
construction by `_add_holiday`:
* `_holidays_by_year`: a `Dict[int, List[Tuple[date, str]]]`, modelled as an
  insertion-ordered association list (Python dicts preserve insertion order);
* `_holiday_dates`: a `Set[date]`, modelled as the list of inserted dates,
  queried only through membership (so set semantics are preserved).

Python `date` objects carry (year, month, day) and compare
lexicographically on those fields; `sorted(..., key=lambda x: x[0])` is a
stable sort by that order, modelled with `List.mergeSort` (stable) over the
boolean lexicographic order `dateLe`.
-/

/-- A calendar date (year, month, day), as in Python `datetime.date`. -/
structure Date where
  year : Nat
  month : Nat
  day : Nat
  deriving DecidableEq, Repr

/-- Python `date` comparison: lexicographic on (year, month, day). -/
def dateLe (a b : Date) : Bool :=
  decide (a.year < b.year ∨ (a.year = b.year ∧
    (a.month < b.month ∨ (a.month = b.month ∧ a.day ≤ b.day))))

/-- Order used by `sorted(..., key=lambda x: x[0])`: compare entries by date. -/
def entryLe (a b : Date × String) : Bool := dateLe a.1 b.1

/-- State of a `StockExchange` instance: the two derived indexes. -/
structure StockExchange where
  holidays_by_year : List (Nat × List (Date × String))
  holiday_dates : List Date

/-- `StockExchange._add_holiday`: appends the entry to the bucket of its year
(creating the bucket at the end of the dict if absent, as Python dict
insertion does) and adds the date to the date set. -/
def StockExchange.add_holiday (s : StockExchange) (holiday_date : Date)
    (description : String) : StockExchange :=
  let year := holiday_date.year
  { holidays_by_year :=
      if (s.holidays_by_year.lookup year).isSome then
        s.holidays_by_year.map (fun p =>
          if p.1 = year then (p.1, p.2 ++ [(holiday_date, description)]) else p)
      else
        s.holidays_by_year ++ [(year, [(holiday_date, description)])],
    holiday_dates := s.holiday_dates ++ [holiday_date] }

/-- The local `all_holidays` accumulator of the `holidays` property: extend
an empty list with every year bucket, in dict (insertion) order. -/
def StockExchange.all_holidays (s : StockExchange) : List (Date × String) :=
  (s.holidays_by_year.map Prod.snd).flatten

/-- `StockExchange.holidays` property: concatenate all year buckets
(in dict order) and sort by date. -/
def StockExchange.holidays (s : StockExchange) : List (Date × String) :=
  s.all_holidays.mergeSort entryLe

/-- `StockExchange.get_holidays_by_year`: the bucket of the year (defaulting to
empty) sorted by date.  The `lru_cache` decorator of the source is modelled
separately (`getHolidaysByYearCached`). -/
def StockExchange.get_holidays_by_year (s : StockExchange) (year : Nat) :
    List (Date × String) :=
  ((s.holidays_by_year.lookup year).getD []).mergeSort entryLe

/-- `StockExchange.is_holiday`: membership in the date set. -/
def StockExchange.is_holiday (s : StockExchange) (check_date : Date) : Bool :=
  decide (check_date ∈ s.holiday_dates)

/-- `StockExchange.__init__`: start from empty indexes and run
`_initialize_holidays`, i.e. fold `_add_holiday` over the literal dataset. -/
def initExchange (entries : List (Date × String)) : StockExchange :=
  entries.foldl (fun s e => s.add_holiday e.1 e.2)
    { holidays_by_year := [], holiday_dates := [] }

/-- The `Holidays` facade: holds an optional exchange. -/
structure Holidays where
  stock_exchange : Option StockExchange

/-- `Holidays.get_holidays`: `[]` when unbound, else the `holidays`
property of the exchange. -/
def Holidays.get_holidays (h : Holidays) : List (Date × String) :=
  match h.stock_exchange with
  | none => []
  | some ex => ex.holidays

/-- `Holidays.get_holidays_by_year`: `[]` when unbound. -/
def Holidays.get_holidays_by_year (h : Holidays) (year : Nat) :
    List (Date × String) :=
  match h.stock_exchange with
  | none => []
  | some ex => ex.get_holidays_by_year year

/-- `Holidays.is_date_holiday`: `False` when unbound. -/
def Holidays.is_date_holiday (h : Holidays) (d : Date) : Bool :=
  match h.stock_exchange with
  | none => false
  | some ex => ex.is_holiday d

/-- The `functools.lru_cache(maxsize=128)` wrapper around
`get_holidays_by_year` forces explicit state: an exchange paired with a
bounded memoization cache. -/
structure ExchangeWithCache where
  core : StockExchange
  cache : List (Nat × List (Date × String))

/-- A call through the `lru_cache` wrapper: on a hit return the cached value
unchanged; on a miss compute, then store (evicting beyond 128 entries). -/
def getHolidaysByYearCached (st : ExchangeWithCache) (year : Nat) :
    List (Date × String) × ExchangeWithCache :=
  match st.cache.lookup year with
  | some v => (v, st)
  | none =>
    let v := st.core.get_holidays_by_year year
    (v, { core := st.core, cache := (year, v) :: st.cache.take 127 })

/-- Every cached value agrees with the uncached computation. -/
def CacheConsistent (st : ExchangeWithCache) : Prop :=
  ∀ p ∈ st.cache, p.2 = st.core.get_holidays_by_year p.1

/-- Number of literal entries of a dataset falling in a given year. -/
def countYear (entries : List (Date × String)) (year : Nat) : Nat :=
  (entries.filter (fun e => e.1.year == year)).length

/-- The year bucket of the dict, defaulting to empty
(`self._holidays_by_year.get(year, [])`). -/
def bucket (s : StockExchange) (year : Nat) : List (Date × String) :=
  (s.holidays_by_year.lookup year).getD []
/-- Literal dataset of the `NYSE` class, in source order. -/
def NYSE_data : List (Date × String) := [
  (Date.mk 2020 1 1, "New year"),
  (Date.mk 2020 1 20, "Martin Luther King, Jr. Day"),
  (Date.mk 2020 2 17, "Washington\x27s Birthday"),
  (Date.mk 2020 4 10, "Good Friday"),
  (Date.mk 2020 5 25, "Memorial Day"),
  (Date.mk 2020 7 4, "Independence Day"),
  (Date.mk 2020 9 7, "Labor Day"),
  (Date.mk 2020 11 26, "Thanksgiving Day"),
  (Date.mk 2020 12 25, "Christmas Day"),
  (Date.mk 2020 12 31, "Last day of year"),
  (Date.mk 2021 1 1, "New year"),
  (Date.mk 2021 1 18, "Martin Luther King, Jr. Day"),
  (Date.mk 2021 2 15, "Washington\x27s Birthday"),
  (Date.mk 2021 4 2, "Good Friday"),
  (Date.mk 2021 5 31, "Memorial Day"),
  (Date.mk 2021 7 4, "Independence Day"),
  (Date.mk 2021 9 6, "Labor Day"),
  (Date.mk 2021 11 25, "Thanksgiving Day"),
  (Date.mk 2021 12 25, "Christmas Day"),
  (Date.mk 2021 12 31, "Last day of year"),
  (Date.mk 2022 1 1, "New year"),
  (Date.mk 2022 1 17, "Martin Luther King, Jr. Day"),
  (Date.mk 2022 2 21, "Washington\x27s Birthday"),
  (Date.mk 2022 4 15, "Good Friday"),
  (Date.mk 2022 5 30, "Memorial Day"),
  (Date.mk 2022 6 20, "Juneteenth National Independence Day"),
  (Date.mk 2022 7 4, "Independence Day"),
  (Date.mk 2022 9 5, "Labor Day"),
  (Date.mk 2022 11 24, "Thanksgiving Day"),
  (Date.mk 2022 12 25, "Christmas Day"),
  (Date.mk 2022 12 31, "Last day of year"),
  (Date.mk 2023 1 1, "New year"),
  (Date.mk 2023 1 16, "Martin Luther King, Jr. Day"),
  (Date.mk 2023 2 20, "Washington\x27s Birthday"),
  (Date.mk 2023 4 7, "Good Friday"),
  (Date.mk 2023 5 29, "Memorial Day"),
  (Date.mk 2023 6 19, "Juneteenth National Independence Day"),
  (Date.mk 2023 7 4, "Independence Day"),
  (Date.mk 2023 9 4, "Labor Day"),
  (Date.mk 2023 11 23, "Thanksgiving Day"),
  (Date.mk 2023 12 25, "Christmas Day"),
  (Date.mk 2023 12 31, "Last day of year"),
  (Date.mk 2024 1 1, "New year"),
  (Date.mk 2024 1 15, "Martin Luther King, Jr. Day"),
  (Date.mk 2024 2 19, "Washington\x27s Birthday"),
  (Date.mk 2024 3 29, "Good Friday"),
  (Date.mk 2024 5 27, "Memorial Day"),
  (Date.mk 2024 6 19, "Juneteenth National Independence Day"),
  (Date.mk 2024 7 4, "Independence Day"),
  (Date.mk 2024 9 2, "Labor Day"),
  (Date.mk 2024 11 28, "Thanksgiving Day"),
  (Date.mk 2024 12 25, "Christmas Day"),
  (Date.mk 2024 12 31, "Last day of year"),
  (Date.mk 2025 1 1, "New year"),
  (Date.mk 2025 1 20, "Martin Luther King, Jr. Day"),
  (Date.mk 2025 2 17, "Washington\x27s Birthday"),
  (Date.mk 2025 4 18, "Good Friday"),
  (Date.mk 2025 5 26, "Memorial Day"),
  (Date.mk 2025 6 19, "Juneteenth National Independence Day"),
  (Date.mk 2025 7 4, "Independence Day"),
  (Date.mk 2025 9 1, "Labor Day"),
  (Date.mk 2025 11 27, "Thanksgiving Day"),
  (Date.mk 2025 12 25, "Christmas Day"),
  (Date.mk 2025 12 31, "Last day of year"),
  (Date.mk 2026 1 1, "New year"),
  (Date.mk 2026 1 19, "Martin Luther King, Jr. Day"),
  (Date.mk 2026 2 16, "Washington\x27s Birthday"),
  (Date.mk 2026 4 3, "Good Friday"),
  (Date.mk 2026 5 25, "Memorial Day"),
  (Date.mk 2026 6 19, "Juneteenth National Independence Day"),
  (Date.mk 2026 7 4, "Independence Day"),
  (Date.mk 2026 9 7, "Labor Day"),
  (Date.mk 2026 11 26, "Thanksgiving Day"),
  (Date.mk 2026 12 25, "Christmas Day"),
  (Date.mk 2026 12 31, "Last day of year")]

/-- Literal dataset of the `CME` class, in source order. -/
def CME_data : List (Date × String) := [
  (Date.mk 2020 1 1, "New year"),
  (Date.mk 2020 1 20, "Martin Luther King, Jr. Day"),
  (Date.mk 2020 2 17, "Washington\x27s Birthday"),
  (Date.mk 2020 4 10, "Good Friday"),
  (Date.mk 2020 5 25, "Memorial Day"),
  (Date.mk 2020 7 4, "Independence Day"),
  (Date.mk 2020 9 7, "Labor Day"),
  (Date.mk 2020 11 26, "Thanksgiving Day"),
  (Date.mk 2020 12 25, "Christmas Day"),
  (Date.mk 2020 12 31, "Last day of year"),
  (Date.mk 2021 1 1, "New year"),
  (Date.mk 2021 1 18, "Martin Luther King, Jr. Day"),
  (Date.mk 2021 2 15, "Washington\x27s Birthday"),
  (Date.mk 2021 4 2, "Good Friday"),
  (Date.mk 2021 5 31, "Memorial Day"),
  (Date.mk 2021 7 4, "Independence Day"),
  (Date.mk 2021 9 6, "Labor Day"),
  (Date.mk 2021 11 25, "Thanksgiving Day"),
  (Date.mk 2021 12 25, "Christmas Day"),
  (Date.mk 2021 12 31, "Last day of year"),
  (Date.mk 2022 1 1, "New year"),
  (Date.mk 2022 1 17, "Martin Luther King, Jr. Day"),
  (Date.mk 2022 2 21, "Washington\x27s Birthday"),
  (Date.mk 2022 4 15, "Good Friday"),
  (Date.mk 2022 5 30, "Memorial Day"),
  (Date.mk 2022 6 20, "Juneteenth National Independence Day"),
  (Date.mk 2022 7 4, "Independence Day"),
  (Date.mk 2022 9 5, "Labor Day"),
  (Date.mk 2022 11 24, "Thanksgiving Day"),
  (Date.mk 2022 12 25, "Christmas Day"),
  (Date.mk 2022 12 31, "Last day of year"),
  (Date.mk 2023 1 1, "New year"),
  (Date.mk 2023 1 16, "Martin Luther King, Jr. Day"),
  (Date.mk 2023 2 20, "Washington\x27s Birthday"),
  (Date.mk 2023 4 7, "Good Friday"),
  (Date.mk 2023 5 29, "Memorial Day"),
  (Date.mk 2023 6 19, "Juneteenth National Independence Day"),
  (Date.mk 2023 7 4, "Independence Day"),
  (Date.mk 2023 9 4, "Labor Day"),
  (Date.mk 2023 11 23, "Thanksgiving Day"),
  (Date.mk 2023 12 25, "Christmas Day"),
  (Date.mk 2023 12 31, "Last day of year"),
  (Date.mk 2024 1 1, "New year"),
  (Date.mk 2024 1 15, "Martin Luther King, Jr. Day"),
  (Date.mk 2024 2 19, "Washington\x27s Birthday"),
  (Date.mk 2024 3 29, "Good Friday"),
  (Date.mk 2024 5 27, "Memorial Day"),
  (Date.mk 2024 6 19, "Juneteenth National Independence Day"),
  (Date.mk 2024 7 4, "Independence Day"),
  (Date.mk 2024 9 2, "Labor Day"),
  (Date.mk 2024 11 28, "Thanksgiving Day"),
  (Date.mk 2024 12 25, "Christmas Day"),
  (Date.mk 2024 12 31, "Last day of year"),
  (Date.mk 2025 1 1, "New year"),
  (Date.mk 2025 1 20, "Martin Luther King, Jr. Day"),
  (Date.mk 2025 2 17, "Washington\x27s Birthday"),
  (Date.mk 2025 4 18, "Good Friday"),
  (Date.mk 2025 5 26, "Memorial Day"),
  (Date.mk 2025 6 19, "Juneteenth National Independence Day"),
  (Date.mk 2025 7 4, "Independence Day"),
  (Date.mk 2025 9 1, "Labor Day"),
  (Date.mk 2025 11 27, "Thanksgiving Day"),
  (Date.mk 2025 12 25, "Christmas Day"),
  (Date.mk 2025 12 31, "Last day of year"),
  (Date.mk 2026 1 1, "New year"),
  (Date.mk 2026 1 19, "Martin Luther King, Jr. Day"),
  (Date.mk 2026 2 16, "Washington\x27s Birthday"),
  (Date.mk 2026 4 3, "Good Friday"),
  (Date.mk 2026 5 25, "Memorial Day"),
  (Date.mk 2026 6 19, "Juneteenth National Independence Day"),
  (Date.mk 2026 7 4, "Independence Day"),
  (Date.mk 2026 9 7, "Labor Day"),
  (Date.mk 2026 11 26, "Thanksgiving Day"),
  (Date.mk 2026 12 25, "Christmas Day"),
  (Date.mk 2026 12 31, "Last day of year")]

/-- Literal dataset of the `B3` class, in source order. -/
def B3_data : List (Date × String) := [
  (Date.mk 2020 1 1, "New year"),
  (Date.mk 2020 2 24, "Carnaval Monday"),
  (Date.mk 2020 2 25, "Carnaval"),
  (Date.mk 2020 4 10, "Good Friday"),
  (Date.mk 2020 4 21, "Tiradentes\x27 Day"),
  (Date.mk 2020 5 1, "Labour Day"),
  (Date.mk 2020 6 11, "Corpus Christi"),
  (Date.mk 2020 7 9, "Constitutional Revolution of 1932"),
  (Date.mk 2020 9 7, "Independence Day"),
  (Date.mk 2020 10 12, "Our Lady of Aparecida"),
  (Date.mk 2020 11 2, "All Souls\x27 Day"),
  (Date.mk 2020 11 15, "Republic Day"),
  (Date.mk 2020 12 25, "Christmas Day"),
  (Date.mk 2020 12 31, "Last day of year"),
  (Date.mk 2021 1 1, "New year"),
  (Date.mk 2021 1 25, "Anniversary of the city of São Paulo"),
  (Date.mk 2021 2 15, "Carnaval Monday"),
  (Date.mk 2021 2 16, "Carnaval"),
  (Date.mk 2021 4 2, "Good Friday"),
  (Date.mk 2021 4 21, "Tiradentes\x27 Day"),
  (Date.mk 2021 5 1, "Labour Day"),
  (Date.mk 2021 6 3, "Corpus Christi"),
  (Date.mk 2021 7 9, "Constitutional Revolution of 1932"),
  (Date.mk 2021 9 7, "Independence Day"),
  (Date.mk 2021 10 12, "Our Lady of Aparecida"),
  (Date.mk 2021 11 2, "All Souls\x27 Day"),
  (Date.mk 2021 11 15, "Republic Day"),
  (Date.mk 2021 12 25, "Christmas Day"),
  (Date.mk 2021 12 31, "Last day of year"),
  (Date.mk 2022 1 1, "New year"),
  (Date.mk 2022 2 28, "Carnaval Monday"),
  (Date.mk 2022 3 1, "Carnaval"),
  (Date.mk 2022 4 15, "Good Friday"),
  (Date.mk 2022 4 21, "Tiradentes\x27 Day"),
  (Date.mk 2022 5 1, "Labour Day"),
  (Date.mk 2022 6 16, "Corpus Christi"),
  (Date.mk 2022 9 7, "Independence Day"),
  (Date.mk 2022 10 12, "Our Lady of Aparecida"),
  (Date.mk 2022 11 2, "All Souls\x27 Day"),
  (Date.mk 2022 11 15, "Republic Day"),
  (Date.mk 2022 12 25, "Christmas Day"),
  (Date.mk 2022 12 31, "Last day of year"),
  (Date.mk 2023 1 1, "New year"),
  (Date.mk 2023 2 21, "Carnaval Monday"),
  (Date.mk 2023 2 22, "Carnaval"),
  (Date.mk 2023 4 7, "Good Friday"),
  (Date.mk 2023 4 21, "Tiradentes\x27 Day"),
  (Date.mk 2023 5 1, "Labour Day"),
  (Date.mk 2023 6 8, "Corpus Christi"),
  (Date.mk 2023 9 7, "Independence Day"),
  (Date.mk 2023 10 12, "Our Lady of Aparecida"),
  (Date.mk 2023 11 2, "All Souls\x27 Day"),
  (Date.mk 2023 11 15, "Republic Day"),
  (Date.mk 2023 12 25, "Christmas Day"),
  (Date.mk 2023 12 31, "Last day of year"),
  (Date.mk 2024 1 1, "New year"),
  (Date.mk 2024 2 12, "Carnaval Monday"),
  (Date.mk 2024 2 13, "Carnaval"),
  (Date.mk 2024 3 29, "Good Friday"),
  (Date.mk 2024 4 21, "Tiradentes\x27 Day"),
  (Date.mk 2024 5 1, "Labour Day"),
  (Date.mk 2024 5 30, "Corpus Christi"),
  (Date.mk 2024 9 7, "Independence Day"),
  (Date.mk 2024 10 12, "Our Lady of Aparecida"),
  (Date.mk 2024 11 2, "All Souls\x27 Day"),
  (Date.mk 2024 11 15, "Republic Day"),
  (Date.mk 2024 12 25, "Christmas Day"),
  (Date.mk 2024 12 31, "Last day of year"),
  (Date.mk 2025 1 1, "New year"),
  (Date.mk 2025 3 3, "Carnaval Monday"),
  (Date.mk 2025 3 4, "Carnaval"),
  (Date.mk 2025 4 18, "Good Friday"),
  (Date.mk 2025 4 21, "Tiradentes\x27 Day"),
  (Date.mk 2025 5 1, "Labour Day"),
  (Date.mk 2025 6 19, "Corpus Christi"),
  (Date.mk 2025 9 7, "Independence Day"),
  (Date.mk 2025 10 12, "Our Lady of Aparecida"),
  (Date.mk 2025 11 2, "All Souls\x27 Day"),
  (Date.mk 2025 11 15, "Republic Day"),
  (Date.mk 2025 12 25, "Christmas Day"),
  (Date.mk 2025 12 31, "Last day of year"),
  (Date.mk 2026 1 1, "New year"),
  (Date.mk 2026 2 16, "Carnaval Monday"),
  (Date.mk 2026 2 17, "Carnaval"),
  (Date.mk 2026 4 3, "Good Friday"),
  (Date.mk 2026 4 21, "Tiradentes\x27 Day"),
  (Date.mk 2026 5 1, "Labour Day"),
  (Date.mk 2026 6 11, "Corpus Christi"),
  (Date.mk 2026 9 7, "Independence Day"),
  (Date.mk 2026 10 12, "Our Lady of Aparecida"),
  (Date.mk 2026 11 2, "All Souls\x27 Day"),
  (Date.mk 2026 11 15, "Republic Day"),
  (Date.mk 2026 12 25, "Christmas Day"),
  (Date.mk 2026 12 31, "Last day of year")]

/-- Literal dataset of the `SSE` class, in source order. -/
def SSE_data : List (Date × String) := [
  (Date.mk 2020 1 1, "New Year\x27s Day"),
  (Date.mk 2020 1 24, "Chinese New Year"),
  (Date.mk 2020 1 27, "Chinese New Year Holiday"),
  (Date.mk 2020 1 28, "Chinese New Year Holiday"),
  (Date.mk 2020 1 29, "Chinese New Year Holiday"),
  (Date.mk 2020 1 30, "Chinese New Year Holiday"),
  (Date.mk 2020 4 6, "Qingming Festival"),
  (Date.mk 2020 5 1, "Labour Day"),
  (Date.mk 2020 5 4, "Labour Day Holiday"),
  (Date.mk 2020 5 5, "Labour Day Holiday"),
  (Date.mk 2020 6 25, "Dragon Boat Festival"),
  (Date.mk 2020 6 26, "Dragon Boat Festival Holiday"),
  (Date.mk 2020 10 1, "National Day"),
  (Date.mk 2020 10 2, "National Day Holiday"),
  (Date.mk 2020 10 5, "National Day Holiday"),
  (Date.mk 2020 10 6, "National Day Holiday"),
  (Date.mk 2020 10 7, "National Day Holiday"),
  (Date.mk 2020 10 8, "National Day Holiday"),
  (Date.mk 2021 1 1, "New Year\x27s Day"),
  (Date.mk 2021 2 11, "Chinese New Year"),
  (Date.mk 2021 2 12, "Chinese New Year Holiday"),
  (Date.mk 2021 2 15, "Chinese New Year Holiday"),
  (Date.mk 2021 2 16, "Chinese New Year Holiday"),
  (Date.mk 2021 2 17, "Chinese New Year Holiday"),
  (Date.mk 2021 4 5, "Qingming Festival"),
  (Date.mk 2021 5 1, "Labour Day"),
  (Date.mk 2021 5 3, "Labour Day Holiday"),
  (Date.mk 2021 5 4, "Labour Day Holiday"),
  (Date.mk 2021 5 5, "Labour Day Holiday"),
  (Date.mk 2021 6 14, "Dragon Boat Festival"),
  (Date.mk 2021 9 20, "Mid-Autumn Festival"),
  (Date.mk 2021 9 21, "Mid-Autumn Festival Holiday"),
  (Date.mk 2021 10 1, "National Day"),
  (Date.mk 2021 10 4, "National Day Holiday"),
  (Date.mk 2021 10 5, "National Day Holiday"),
  (Date.mk 2021 10 6, "National Day Holiday"),
  (Date.mk 2021 10 7, "National Day Holiday"),
  (Date.mk 2022 1 1, "New Year\x27s Day"),
  (Date.mk 2022 1 3, "New Year Holiday"),
  (Date.mk 2022 1 31, "Chinese New Year"),
  (Date.mk 2022 2 1, "Chinese New Year Holiday"),
  (Date.mk 2022 2 2, "Chinese New Year Holiday"),
  (Date.mk 2022 2 3, "Chinese New Year Holiday"),
  (Date.mk 2022 2 4, "Chinese New Year Holiday"),
  (Date.mk 2022 4 4, "Qingming Festival"),
  (Date.mk 2022 4 5, "Qingming Festival Holiday"),
  (Date.mk 2022 5 2, "Labour Day"),
  (Date.mk 2022 5 3, "Labour Day Holiday"),
  (Date.mk 2022 5 4, "Labour Day Holiday"),
  (Date.mk 2022 6 3, "Dragon Boat Festival"),
  (Date.mk 2022 9 12, "Mid-Autumn Festival"),
  (Date.mk 2022 10 3, "National Day"),
  (Date.mk 2022 10 4, "National Day Holiday"),
  (Date.mk 2022 10 5, "National Day Holiday"),
  (Date.mk 2022 10 6, "National Day Holiday"),
  (Date.mk 2022 10 7, "National Day Holiday"),
  (Date.mk 2023 1 1, "New Year\x27s Day"),
  (Date.mk 2023 1 2, "New Year Holiday"),
  (Date.mk 2023 1 23, "Chinese New Year"),
  (Date.mk 2023 1 24, "Chinese New Year Holiday"),
  (Date.mk 2023 1 25, "Chinese New Year Holiday"),
  (Date.mk 2023 1 26, "Chinese New Year Holiday"),
  (Date.mk 2023 1 27, "Chinese New Year Holiday"),
  (Date.mk 2023 4 5, "Qingming Festival"),
  (Date.mk 2023 5 1, "Labour Day"),
  (Date.mk 2023 5 2, "Labour Day Holiday"),
  (Date.mk 2023 5 3, "Labour Day Holiday"),
  (Date.mk 2023 6 22, "Dragon Boat Festival"),
  (Date.mk 2023 6 23, "Dragon Boat Festival Holiday"),
  (Date.mk 2023 9 29, "Mid-Autumn Festival"),
  (Date.mk 2023 10 2, "National Day"),
  (Date.mk 2023 10 3, "National Day Holiday"),
  (Date.mk 2023 10 4, "National Day Holiday"),
  (Date.mk 2023 10 5, "National Day Holiday"),
  (Date.mk 2023 10 6, "National Day Holiday"),
  (Date.mk 2024 1 1, "New Year\x27s Day"),
  (Date.mk 2024 2 10, "Chinese New Year"),
  (Date.mk 2024 2 11, "Chinese New Year Holiday"),
  (Date.mk 2024 2 12, "Chinese New Year Holiday"),
  (Date.mk 2024 2 13, "Chinese New Year Holiday"),
  (Date.mk 2024 2 14, "Chinese New Year Holiday"),
  (Date.mk 2024 4 4, "Qingming Festival"),
  (Date.mk 2024 4 5, "Qingming Festival Holiday"),
  (Date.mk 2024 5 1, "Labour Day"),
  (Date.mk 2024 5 2, "Labour Day Holiday"),
  (Date.mk 2024 5 3, "Labour Day Holiday"),
  (Date.mk 2024 6 10, "Dragon Boat Festival"),
  (Date.mk 2024 9 17, "Mid-Autumn Festival"),
  (Date.mk 2024 10 1, "National Day"),
  (Date.mk 2024 10 2, "National Day Holiday"),
  (Date.mk 2024 10 3, "National Day Holiday"),
  (Date.mk 2024 10 4, "National Day Holiday"),
  (Date.mk 2024 10 7, "National Day Holiday"),
  (Date.mk 2025 1 1, "New Year\x27s Day"),
  (Date.mk 2025 1 29, "Chinese New Year"),
  (Date.mk 2025 1 30, "Chinese New Year Holiday"),
  (Date.mk 2025 1 31, "Chinese New Year Holiday"),
  (Date.mk 2025 2 3, "Chinese New Year Holiday"),
  (Date.mk 2025 2 4, "Chinese New Year Holiday"),
  (Date.mk 2025 4 4, "Qingming Festival"),
  (Date.mk 2025 5 1, "Labour Day"),
  (Date.mk 2025 5 2, "Labour Day Holiday"),
  (Date.mk 2025 5 5, "Labour Day Holiday"),
  (Date.mk 2025 5 31, "Dragon Boat Festival"),
  (Date.mk 2025 10 1, "National Day"),
  (Date.mk 2025 10 2, "National Day Holiday"),
  (Date.mk 2025 10 3, "National Day Holiday"),
  (Date.mk 2025 10 6, "National Day Holiday"),
  (Date.mk 2025 10 7, "National Day Holiday"),
  (Date.mk 2026 1 1, "New year"),
  (Date.mk 2026 1 29, "Chinese New Year"),
  (Date.mk 2026 1 30, "Chinese New Year Holiday"),
  (Date.mk 2026 1 31, "Chinese New Year Holiday"),
  (Date.mk 2026 2 3, "Chinese New Year Holiday"),
  (Date.mk 2026 2 4, "Chinese New Year Holiday"),
  (Date.mk 2026 4 4, "Qingming Festival"),
  (Date.mk 2026 5 1, "Labour Day"),
  (Date.mk 2026 5 2, "Labour Day Holiday"),
  (Date.mk 2026 5 5, "Labour Day Holiday"),
  (Date.mk 2026 5 31, "Dragon Boat Festival"),
  (Date.mk 2026 10 1, "National Day"),
  (Date.mk 2026 10 2, "National Day Holiday"),
  (Date.mk 2026 10 3, "National Day Holiday"),
  (Date.mk 2026 10 6, "National Day Holiday"),
  (Date.mk 2026 10 7, "National Day Holiday")]

/-- Literal dataset of the `JPX` class, in source order. -/
def JPX_data : List (Date × String) := [
  (Date.mk 2020 1 1, "New Year\x27s Day"),
  (Date.mk 2020 1 2, "New Year\x27s Holiday"),
  (Date.mk 2020 1 3, "New Year\x27s Holiday"),
  (Date.mk 2020 1 13, "Coming of Age Day"),
  (Date.mk 2020 2 11, "National Foundation Day"),
  (Date.mk 2020 2 24, "Emperor\x27s Birthday"),
  (Date.mk 2020 3 20, "Vernal Equinox Day"),
  (Date.mk 2020 4 29, "Showa Day"),
  (Date.mk 2020 5 4, "Greenery Day"),
  (Date.mk 2020 5 5, "Children\x27s Day"),
  (Date.mk 2020 5 6, "Constitution Memorial Day observed"),
  (Date.mk 2020 7 23, "Marine Day"),
  (Date.mk 2020 7 24, "Health and Sports Day"),
  (Date.mk 2020 8 10, "Mountain Day"),
  (Date.mk 2020 9 21, "Respect for the Aged Day"),
  (Date.mk 2020 9 22, "Autumnal Equinox Day"),
  (Date.mk 2020 11 3, "Culture Day"),
  (Date.mk 2020 11 23, "Labor Thanksgiving Day"),
  (Date.mk 2020 12 31, "New Year\x27s Eve"),
  (Date.mk 2021 1 1, "New Year\x27s Day"),
  (Date.mk 2021 1 2, "New Year\x27s Holiday"),
  (Date.mk 2021 1 3, "New Year\x27s Holiday"),
  (Date.mk 2021 1 11, "Coming of Age Day"),
  (Date.mk 2021 2 11, "National Foundation Day"),
  (Date.mk 2021 2 23, "Emperor\x27s Birthday"),
  (Date.mk 2021 3 20, "Vernal Equinox Day"),
  (Date.mk 2021 4 29, "Showa Day"),
  (Date.mk 2021 5 3, "Constitution Memorial Day"),
  (Date.mk 2021 5 4, "Greenery Day"),
  (Date.mk 2021 5 5, "Children\x27s Day"),
  (Date.mk 2021 7 22, "Marine Day"),
  (Date.mk 2021 7 23, "Health and Sports Day"),
  (Date.mk 2021 8 8, "Mountain Day"),
  (Date.mk 2021 8 9, "Mountain Day observed"),
  (Date.mk 2021 9 20, "Respect for the Aged Day"),
  (Date.mk 2021 9 23, "Autumnal Equinox Day"),
  (Date.mk 2021 11 3, "Culture Day"),
  (Date.mk 2021 11 23, "Labor Thanksgiving Day"),
  (Date.mk 2021 12 31, "New Year\x27s Eve"),
  (Date.mk 2022 1 1, "New Year\x27s Day"),
  (Date.mk 2022 1 3, "New Year\x27s Holiday"),
  (Date.mk 2022 1 10, "Coming of Age Day"),
  (Date.mk 2022 2 11, "National Foundation Day"),
  (Date.mk 2022 2 23, "Emperor\x27s Birthday"),
  (Date.mk 2022 3 21, "Vernal Equinox Day"),
  (Date.mk 2022 4 29, "Showa Day"),
  (Date.mk 2022 5 3, "Constitution Memorial Day"),
  (Date.mk 2022 5 4, "Greenery Day"),
  (Date.mk 2022 5 5, "Children\x27s Day"),
  (Date.mk 2022 7 18, "Marine Day"),
  (Date.mk 2022 8 11, "Mountain Day"),
  (Date.mk 2022 9 19, "Respect for the Aged Day"),
  (Date.mk 2022 9 23, "Autumnal Equinox Day"),
  (Date.mk 2022 10 10, "Health and Sports Day"),
  (Date.mk 2022 11 3, "Culture Day"),
  (Date.mk 2022 11 23, "Labor Thanksgiving Day"),
  (Date.mk 2022 12 31, "New Year\x27s Eve"),
  (Date.mk 2023 1 1, "New Year\x27s Day"),
  (Date.mk 2023 1 2, "New Year\x27s Holiday"),
  (Date.mk 2023 1 3, "New Year\x27s Holiday"),
  (Date.mk 2023 1 9, "Coming of Age Day"),
  (Date.mk 2023 2 11, "National Foundation Day"),
  (Date.mk 2023 2 23, "Emperor\x27s Birthday"),
  (Date.mk 2023 3 21, "Vernal Equinox Day"),
  (Date.mk 2023 4 29, "Showa Day"),
  (Date.mk 2023 5 3, "Constitution Memorial Day"),
  (Date.mk 2023 5 4, "Greenery Day"),
  (Date.mk 2023 5 5, "Children\x27s Day"),
  (Date.mk 2023 7 17, "Marine Day"),
  (Date.mk 2023 8 11, "Mountain Day"),
  (Date.mk 2023 9 18, "Respect for the Aged Day"),
  (Date.mk 2023 9 23, "Autumnal Equinox Day"),
  (Date.mk 2023 10 9, "Health and Sports Day"),
  (Date.mk 2023 11 3, "Culture Day"),
  (Date.mk 2023 11 23, "Labor Thanksgiving Day"),
  (Date.mk 2023 12 31, "New Year\x27s Eve"),
  (Date.mk 2024 1 1, "New Year\x27s Day"),
  (Date.mk 2024 1 2, "New Year\x27s Holiday"),
  (Date.mk 2024 1 3, "New Year\x27s Holiday"),
  (Date.mk 2024 1 8, "Coming of Age Day"),
  (Date.mk 2024 2 11, "National Foundation Day"),
  (Date.mk 2024 2 12, "National Foundation Day observed"),
  (Date.mk 2024 2 23, "Emperor\x27s Birthday"),
  (Date.mk 2024 3 20, "Vernal Equinox Day"),
  (Date.mk 2024 4 29, "Showa Day"),
  (Date.mk 2024 5 3, "Constitution Memorial Day"),
  (Date.mk 2024 5 4, "Greenery Day"),
  (Date.mk 2024 5 5, "Children\x27s Day"),
  (Date.mk 2024 5 6, "Children\x27s Day observed"),
  (Date.mk 2024 7 15, "Marine Day"),
  (Date.mk 2024 8 11, "Mountain Day"),
  (Date.mk 2024 8 12, "Mountain Day observed"),
  (Date.mk 2024 9 16, "Respect for the Aged Day"),
  (Date.mk 2024 9 22, "Autumnal Equinox Day"),
  (Date.mk 2024 9 23, "Autumnal Equinox Day observed"),
  (Date.mk 2024 10 14, "Health and Sports Day"),
  (Date.mk 2024 11 3, "Culture Day"),
  (Date.mk 2024 11 4, "Culture Day observed"),
  (Date.mk 2024 11 23, "Labor Thanksgiving Day"),
  (Date.mk 2024 12 31, "New Year\x27s Eve"),
  (Date.mk 2025 1 1, "New Year\x27s Day"),
  (Date.mk 2025 1 2, "New Year\x27s Holiday"),
  (Date.mk 2025 1 3, "New Year\x27s Holiday"),
  (Date.mk 2025 1 13, "Coming of Age Day"),
  (Date.mk 2025 2 11, "National Foundation Day"),
  (Date.mk 2025 2 23, "Emperor\x27s Birthday"),
  (Date.mk 2025 2 24, "Emperor\x27s Birthday observed"),
  (Date.mk 2025 3 20, "Vernal Equinox Day"),
  (Date.mk 2025 4 29, "Showa Day"),
  (Date.mk 2025 5 3, "Constitution Memorial Day"),
  (Date.mk 2025 5 4, "Greenery Day"),
  (Date.mk 2025 5 5, "Children\x27s Day"),
  (Date.mk 2025 5 6, "Children\x27s Day observed"),
  (Date.mk 2025 7 21, "Marine Day"),
  (Date.mk 2025 8 11, "Mountain Day"),
  (Date.mk 2025 9 15, "Respect for the Aged Day"),
  (Date.mk 2025 9 23, "Autumnal Equinox Day"),
  (Date.mk 2025 10 13, "Health and Sports Day"),
  (Date.mk 2025 11 3, "Culture Day"),
  (Date.mk 2025 11 23, "Labor Thanksgiving Day"),
  (Date.mk 2025 11 24, "Labor Thanksgiving Day observed"),
  (Date.mk 2025 12 31, "New Year\x27s Eve"),
  (Date.mk 2026 1 1, "New Year\x27s Day"),
  (Date.mk 2026 1 2, "New Year\x27s Holiday"),
  (Date.mk 2026 1 3, "New Year\x27s Holiday"),
  (Date.mk 2026 1 13, "Coming of Age Day"),
  (Date.mk 2026 2 11, "National Foundation Day"),
  (Date.mk 2026 2 23, "Emperor\x27s Birthday"),
  (Date.mk 2026 2 24, "Emperor\x27s Birthday observed"),
  (Date.mk 2026 3 20, "Vernal Equinox Day"),
  (Date.mk 2026 4 29, "Showa Day"),
  (Date.mk 2026 5 3, "Constitution Memorial Day"),
  (Date.mk 2026 5 4, "Greenery Day"),
  (Date.mk 2026 5 5, "Children\x27s Day"),
  (Date.mk 2026 5 6, "Children\x27s Day observed"),
  (Date.mk 2026 7 21, "Marine Day"),
  (Date.mk 2026 8 11, "Mountain Day"),
  (Date.mk 2026 9 15, "Respect for the Aged Day"),
  (Date.mk 2026 9 23, "Autumnal Equinox Day"),
  (Date.mk 2026 10 13, "Health and Sports Day"),
  (Date.mk 2026 11 3, "Culture Day"),
  (Date.mk 2026 11 23, "Labor Thanksgiving Day"),
  (Date.mk 2026 11 24, "Labor Thanksgiving Day observed"),
  (Date.mk 2026 12 31, "New Year\x27s Eve")]

/-- The `NYSE()` instance. -/
def NYSE : StockExchange := initExchange NYSE_data

/-- The `CME()` instance. -/
def CME : StockExchange := initExchange CME_data

/-- The `B3()` instance. -/
def B3 : StockExchange := initExchange B3_data

/-- The `SSE()` instance. -/
def SSE : StockExchange := initExchange SSE_data

/-- The `JPX()` instance. -/
def JPX : StockExchange := initExchange JPX_data


/-! ### How `_add_holiday` builds the two indexes -/

theorem add_holiday_dates (s : StockExchange) (d : Date) (c : String) :
    (s.add_holiday d c).holiday_dates = s.holiday_dates ++ [d] := rfl

theorem foldAdd_holiday_dates (l : List (Date × String)) (s : StockExchange) :
    (l.foldl (fun s e => s.add_holiday e.1 e.2) s).holiday_dates
      = s.holiday_dates ++ l.map Prod.fst := by
  induction l generalizing s with
  | nil => simp
  | cons e l ih => simp [List.foldl_cons, ih, add_holiday_dates]

theorem initExchange_holiday_dates (l : List (Date × String)) :
    (initExchange l).holiday_dates = l.map Prod.fst := by
  simp [initExchange, foldAdd_holiday_dates]

theorem is_holiday_init (l : List (Date × String)) (d : Date) :
    (initExchange l).is_holiday d = true ↔ d ∈ l.map Prod.fst := by
  simp [StockExchange.is_holiday, initExchange_holiday_dates]

theorem lookup_map_modify (l : List (Nat × List (Date × String))) (Y y : Nat)
    (x : Date × String) :
    (l.map (fun p => if p.1 = Y then (p.1, p.2 ++ [x]) else p)).lookup y
      = (l.lookup y).map (fun v => if y = Y then v ++ [x] else v) := by
  induction l with
  | nil => simp
  | cons p l ih =>
    rcases p with ⟨k, v⟩
    by_cases hy : y = k
    · subst hy
      by_cases hk : y = Y
      · subst hk
        simp [List.lookup_cons, ih]
      · simp [List.lookup_cons, hk, ih]
    · have hbk : (y == k) = false := by simpa using hy
      by_cases hk : k = Y
      · subst hk
        simp [List.lookup_cons, hbk, ih]
      · simp [List.lookup_cons, hbk, hk, ih]

theorem add_holiday_hby (s : StockExchange) (d : Date) (c : String) :
    (s.add_holiday d c).holidays_by_year =
      if (s.holidays_by_year.lookup d.year).isSome then
        s.holidays_by_year.map (fun p =>
          if p.1 = d.year then (p.1, p.2 ++ [(d, c)]) else p)
      else s.holidays_by_year ++ [(d.year, [(d, c)])] := rfl

theorem bucket_add_holiday (s : StockExchange) (d : Date) (c : String) (y : Nat) :
    bucket (s.add_holiday d c) y
      = bucket s y ++ (if d.year == y then [(d, c)] else []) := by
  unfold bucket
  rw [add_holiday_hby]
  cases hs : s.holidays_by_year.lookup d.year with
  | some v =>
    simp only [Option.isSome_some, if_true]
    rw [lookup_map_modify]
    by_cases hy : y = d.year
    · subst hy
      simp [hs]
    · simp [hs, hy, Ne.symm hy]
  | none =>
    simp only [Option.isSome_none, Bool.false_eq_true, if_false]
    rw [List.lookup_append]
    by_cases hy : y = d.year
    · subst hy
      simp [hs]
    · have hbk : (y == d.year) = false := by simpa using hy
      simp [List.lookup_cons, hbk, Ne.symm hy]

theorem bucket_foldAdd (l : List (Date × String)) (s : StockExchange) (y : Nat) :
    bucket (l.foldl (fun s e => s.add_holiday e.1 e.2) s) y
      = bucket s y ++ l.filter (fun e => e.1.year == y) := by
  induction l generalizing s with
  | nil => simp
  | cons e l ih =>
    simp only [List.foldl_cons, ih, bucket_add_holiday, List.filter_cons]
    by_cases h : e.1.year = y <;> simp [h]

theorem bucket_init (l : List (Date × String)) (y : Nat) :
    bucket (initExchange l) y = l.filter (fun e => e.1.year == y) := by
  show bucket (l.foldl (fun s e => s.add_holiday e.1 e.2) ⟨[], []⟩) y = _
  rw [bucket_foldAdd]
  simp [bucket]

theorem get_holidays_by_year_init (l : List (Date × String)) (y : Nat) :
    (initExchange l).get_holidays_by_year y
      = (l.filter (fun e => e.1.year == y)).mergeSort entryLe := by
  show (bucket (initExchange l) y).mergeSort entryLe = _
  rw [bucket_init]

theorem entryLe_trans (a b c : Date × String) :
    entryLe a b → entryLe b c → entryLe a c := by
  simp only [entryLe, dateLe, decide_eq_true_eq]
  omega

theorem entryLe_total (a b : Date × String) : entryLe a b || entryLe b a := by
  simp only [entryLe, dateLe, Bool.or_eq_true, decide_eq_true_eq]
  omega

/-! ### Keys of the year index are unique; buckets partition the dataset -/

theorem add_holiday_keys (s : StockExchange) (d : Date) (c : String) :
    (s.add_holiday d c).holidays_by_year.map Prod.fst
      = if (s.holidays_by_year.lookup d.year).isSome
        then s.holidays_by_year.map Prod.fst
        else s.holidays_by_year.map Prod.fst ++ [d.year] := by
  rw [add_holiday_hby]
  cases hs : s.holidays_by_year.lookup d.year with
  | some v =>
    simp only [Option.isSome_some, if_true, List.map_map]
    refine List.map_congr_left fun p _ => ?_
    by_cases hp : p.1 = d.year <;> simp [hp]
  | none => simp

theorem keys_nodup_add (s : StockExchange) (d : Date) (c : String)
    (h : (s.holidays_by_year.map Prod.fst).Nodup) :
    ((s.add_holiday d c).holidays_by_year.map Prod.fst).Nodup := by
  rw [add_holiday_keys]
  cases hs : s.holidays_by_year.lookup d.year with
  | some v => simpa using h
  | none =>
    have hd : d.year ∉ s.holidays_by_year.map Prod.fst := by
      intro hmem
      rcases List.mem_map.mp hmem with ⟨p, hp, hp1⟩
      have := List.lookup_eq_none_iff.mp hs p hp
      simp [← hp1] at this
    simp [List.nodup_append, h, hd]

theorem keys_nodup_foldAdd (l : List (Date × String)) (s : StockExchange)
    (h : (s.holidays_by_year.map Prod.fst).Nodup) :
    (((l.foldl (fun s e => s.add_holiday e.1 e.2) s)).holidays_by_year.map
      Prod.fst).Nodup := by
  induction l generalizing s with
  | nil => simpa using h
  | cons e l ih => exact ih _ (keys_nodup_add _ _ _ h)

theorem keys_nodup_init (l : List (Date × String)) :
    ((initExchange l).holidays_by_year.map Prod.fst).Nodup :=
  keys_nodup_foldAdd l ⟨[], []⟩ (by simp)

theorem lookup_eq_of_mem_nodup (l : List (Nat × List (Date × String)))
    (h : (l.map Prod.fst).Nodup) (p : Nat × List (Date × String)) (hp : p ∈ l) :
    l.lookup p.1 = some p.2 := by
  induction l with
  | nil => cases hp
  | cons q l ih =>
    rcases q with ⟨k, v⟩
    have h2 : (k :: l.map Prod.fst).Nodup := by simpa only [List.map_cons] using h
    rcases List.nodup_cons.mp h2 with ⟨hq, h'⟩
    rcases List.mem_cons.mp hp with rfl | hp'
    · exact List.lookup_cons_self
    · have hne : p.1 ≠ k := by
        intro he
        exact hq (he ▸ List.mem_map_of_mem Prod.fst hp')
      have hbk : (p.1 == k) = false := by simpa using hne
      simp [List.lookup_cons, hbk, ih h' hp']

/-! ### The flat list of all entries is a permutation of the dataset -/

theorem flatten_map_modify_perm (l : List (Nat × List (Date × String))) (Y : Nat)
    (x : Date × String) (hnd : (l.map Prod.fst).Nodup) (hY : Y ∈ l.map Prod.fst) :
    ((l.map (fun p => if p.1 = Y then (p.1, p.2 ++ [x]) else p)).map
      Prod.snd).flatten.Perm ((l.map Prod.snd).flatten ++ [x]) := by
  induction l with
  | nil => simp at hY
  | cons q l ih =>
    rcases q with ⟨k, v⟩
    have h2 : (k :: l.map Prod.fst).Nodup := by
      simpa only [List.map_cons] using hnd
    rcases List.nodup_cons.mp h2 with ⟨hk_not, hnd'⟩
    by_cases hk : k = Y
    · subst hk
      have hmap : l.map (fun p => if p.1 = k then (p.1, p.2 ++ [x]) else p) = l := by
        rw [show l.map (fun p => if p.1 = k then (p.1, p.2 ++ [x]) else p)
              = l.map id from
            List.map_congr_left fun p hp => by
              have : p.1 ≠ k := fun he =>
                hk_not (he ▸ List.mem_map_of_mem Prod.fst hp)
              simp [this], List.map_id]
      have hcons : ((k, v) :: l).map
            (fun p => if p.1 = k then (p.1, p.2 ++ [x]) else p)
          = (k, v ++ [x]) :: l := by
        rw [List.map_cons, hmap]
        simp
      rw [hcons]
      simp only [List.map_cons, List.flatten_cons]
      rw [List.append_assoc, List.append_assoc]
      exact List.Perm.append_left v List.perm_append_comm
    · have hY' : Y ∈ l.map Prod.fst := by
        rcases List.mem_cons.mp (by simpa only [List.map_cons] using hY) with h | h
        · exact absurd h.symm hk
        · exact h
      have hcons : ((k, v) :: l).map
            (fun p => if p.1 = Y then (p.1, p.2 ++ [x]) else p)
          = (k, v) :: l.map (fun p => if p.1 = Y then (p.1, p.2 ++ [x]) else p) := by
        rw [List.map_cons]
        simp [hk]
      rw [hcons]
      simp only [List.map_cons, List.flatten_cons]
      rw [List.append_assoc]
      exact List.Perm.append_left v (ih hnd' hY')

theorem all_holidays_add_perm (s : StockExchange) (d : Date) (c : String)
    (h : (s.holidays_by_year.map Prod.fst).Nodup) :
    (s.add_holiday d c).all_holidays.Perm (s.all_holidays ++ [(d, c)]) := by
  unfold StockExchange.all_holidays
  rw [add_holiday_hby]
  cases hs : s.holidays_by_year.lookup d.year with
  | some v =>
    simp only [Option.isSome_some, if_true]
    apply flatten_map_modify_perm _ _ _ h
    have hsome : (s.holidays_by_year.lookup d.year).isSome := by rw [hs]; rfl
    rcases List.lookup_isSome_iff.mp hsome with ⟨p, hp, hbeq⟩
    exact (beq_iff_eq.mp hbeq) ▸ List.mem_map_of_mem Prod.fst hp
  | none =>
    simp only [Option.isSome_none, Bool.false_eq_true, if_false]
    rw [List.map_append, List.flatten_append]
    simp

theorem all_holidays_foldAdd_perm (l : List (Date × String)) (s : StockExchange)
    (h : (s.holidays_by_year.map Prod.fst).Nodup) :
    ((l.foldl (fun s e => s.add_holiday e.1 e.2) s)).all_holidays.Perm
      (s.all_holidays ++ l) := by
  induction l generalizing s with
  | nil => simp
  | cons e l ih =>
    rw [List.foldl_cons]
    refine (ih _ (keys_nodup_add _ _ _ h)).trans ?_
    refine ((all_holidays_add_perm s e.1 e.2 h).append_right l).trans ?_
    rw [List.append_assoc]
    exact List.Perm.refl _

theorem all_holidays_init_perm (l : List (Date × String)) :
    (initExchange l).all_holidays.Perm l := by
  have h := all_holidays_foldAdd_perm l ⟨[], []⟩ (by simp)
  simpa [StockExchange.all_holidays] using h

theorem holidays_init_perm (l : List (Date × String)) :
    (initExchange l).holidays.Perm l :=
  (List.mergeSort_perm _ _).trans (all_holidays_init_perm l)

/-! ### Specification of the query methods over a generic dataset -/

theorem getHolidays_init_spec (D : List (Date × String))
    (hD : (D.map Prod.fst).Nodup) :
    (initExchange D).holidays.Pairwise (fun a b => entryLe a b = true)
    ∧ (initExchange D).holidays.Nodup
    ∧ (∀ e, e ∈ (initExchange D).holidays ↔ e ∈ D)
    ∧ (initExchange D).holidays.length = D.length
    ∧ (initExchange D).holidays.length
        = (((initExchange D).holidays_by_year.map Prod.fst).map
            (fun y => ((initExchange D).get_holidays_by_year y).length)).sum := by
  have hperm := holidays_init_perm D
  refine ⟨?_, ?_, ?_, hperm.length_eq, ?_⟩
  · exact List.sorted_mergeSort entryLe_trans entryLe_total _
  · exact hperm.nodup_iff.mpr hD.of_map
  · exact fun e => hperm.mem_iff
  · have hkeys := keys_nodup_init D
    have hsum : (((initExchange D).holidays_by_year.map Prod.fst).map
        (fun y => ((initExchange D).get_holidays_by_year y).length)).sum
        = (((initExchange D).holidays_by_year.map Prod.snd).map
            List.length).sum := by
      rw [List.map_map, List.map_map]
      refine congrArg List.sum (List.map_congr_left fun p hp => ?_)
      have hl := lookup_eq_of_mem_nodup _ hkeys p hp
      simp [Function.comp, StockExchange.get_holidays_by_year, hl]
    rw [hsum]
    show ((initExchange D).all_holidays.mergeSort entryLe).length = _
    rw [List.length_mergeSort]
    exact List.length_flatten _

/-! ### The claims -/

/-- C1: for every configured exchange (NYSE, CME, B3, SSE, JPX),
`is_date_holiday(d)` through the facade is true exactly when `d` occurs in
the literal dataset of that exchange; in particular NYSE 2020-12-26 is false and
NYSE 2020-01-01 is true. -/
theorem claim_C1 :
    (∀ d : Date,
      ((Holidays.mk (some NYSE)).is_date_holiday d = true
        ↔ d ∈ NYSE_data.map Prod.fst)
      ∧ ((Holidays.mk (some CME)).is_date_holiday d = true
        ↔ d ∈ CME_data.map Prod.fst)
      ∧ ((Holidays.mk (some B3)).is_date_holiday d = true
        ↔ d ∈ B3_data.map Prod.fst)
      ∧ ((Holidays.mk (some SSE)).is_date_holiday d = true
        ↔ d ∈ SSE_data.map Prod.fst)
      ∧ ((Holidays.mk (some JPX)).is_date_holiday d = true
        ↔ d ∈ JPX_data.map Prod.fst))
    ∧ (Holidays.mk (some NYSE)).is_date_holiday (Date.mk 2020 12 26) = false
    ∧ (Holidays.mk (some NYSE)).is_date_holiday (Date.mk 2020 1 1) = true := by
  have hdates : NYSE.holiday_dates = NYSE_data.map Prod.fst :=
    initExchange_holiday_dates NYSE_data
  refine ⟨fun d => ⟨is_holiday_init NYSE_data d, is_holiday_init CME_data d,
    is_holiday_init B3_data d, is_holiday_init SSE_data d,
    is_holiday_init JPX_data d⟩, ?_, ?_⟩
  · show decide ((Date.mk 2020 12 26) ∈ NYSE.holiday_dates) = false
    rw [hdates]
    decide
  · show decide ((Date.mk 2020 1 1) ∈ NYSE.holiday_dates) = true
    rw [hdates]
    decide

/-- C2: for every configured exchange and year, `get_holidays_by_year`
returns a date-sorted sequence whose length is the number of literal entries
of that year; NYSE 2020 has 10 entries, NYSE 2022 has 11. -/
theorem claim_C2 :
    (∀ y : Nat,
      ((NYSE.get_holidays_by_year y).Pairwise (fun a b => entryLe a b = true)
        ∧ (NYSE.get_holidays_by_year y).length = countYear NYSE_data y)
      ∧ ((CME.get_holidays_by_year y).Pairwise (fun a b => entryLe a b = true)
        ∧ (CME.get_holidays_by_year y).length = countYear CME_data y)
      ∧ ((B3.get_holidays_by_year y).Pairwise (fun a b => entryLe a b = true)
        ∧ (B3.get_holidays_by_year y).length = countYear B3_data y)
      ∧ ((SSE.get_holidays_by_year y).Pairwise (fun a b => entryLe a b = true)
        ∧ (SSE.get_holidays_by_year y).length = countYear SSE_data y)
      ∧ ((JPX.get_holidays_by_year y).Pairwise (fun a b => entryLe a b = true)
        ∧ (JPX.get_holidays_by_year y).length = countYear JPX_data y))
    ∧ (NYSE.get_holidays_by_year 2020).length = 10
    ∧ (NYSE.get_holidays_by_year 2022).length = 11 := by
  have hgen : ∀ (D : List (Date × String)) (y : Nat),
      ((initExchange D).get_holidays_by_year y).Pairwise
        (fun a b => entryLe a b = true)
      ∧ ((initExchange D).get_holidays_by_year y).length = countYear D y := by
    intro D y
    constructor
    · rw [get_holidays_by_year_init]
      exact List.sorted_mergeSort entryLe_trans entryLe_total _
    · rw [get_holidays_by_year_init, List.length_mergeSort]
      rfl
  refine ⟨fun y => ⟨hgen NYSE_data y, hgen CME_data y, hgen B3_data y,
    hgen SSE_data y, hgen JPX_data y⟩, ?_, ?_⟩
  · exact (hgen NYSE_data 2020).2.trans (by decide)
  · exact (hgen NYSE_data 2022).2.trans (by decide)

/-- C4: the unbound facade returns empty/false from all three operations,
with no error possible. -/
theorem claim_C4 :
    (Holidays.mk none).get_holidays = []
    ∧ (∀ y : Nat, (Holidays.mk none).get_holidays_by_year y = [])
    ∧ (∀ d : Date, (Holidays.mk none).is_date_holiday d = false) :=
  ⟨rfl, fun _ => rfl, fun _ => rfl⟩

/-- C5: for every configured exchange, a year with no literal entries yields
the empty sequence from `get_holidays_by_year` (e.g. 2019). -/
theorem claim_C5 (y : Nat) :
    (countYear NYSE_data y = 0 → NYSE.get_holidays_by_year y = [])
    ∧ (countYear CME_data y = 0 → CME.get_holidays_by_year y = [])
    ∧ (countYear B3_data y = 0 → B3.get_holidays_by_year y = [])
    ∧ (countYear SSE_data y = 0 → SSE.get_holidays_by_year y = [])
    ∧ (countYear JPX_data y = 0 → JPX.get_holidays_by_year y = []) := by
  have hgen : ∀ (D : List (Date × String)), countYear D y = 0 →
      (initExchange D).get_holidays_by_year y = [] := by
    intro D h
    rw [get_holidays_by_year_init]
    have hnil : D.filter (fun e => e.1.year == y) = [] :=
      List.length_eq_zero.mp h
    rw [hnil]
    exact List.mergeSort_nil
  exact ⟨hgen NYSE_data, hgen CME_data, hgen B3_data, hgen SSE_data,
    hgen JPX_data⟩

theorem claim_C5_witness :
    countYear NYSE_data 2019 = 0 ∧ NYSE.get_holidays_by_year 2019 = [] :=
  ⟨by decide, (claim_C5 2019).1 (by decide)⟩

set_option maxRecDepth 16384 in
/-- C6: in the literal dataset of each exchange no calendar date occurs twice. -/
theorem claim_C6 :
    (NYSE_data.map Prod.fst).Nodup ∧ (CME_data.map Prod.fst).Nodup
    ∧ (B3_data.map Prod.fst).Nodup ∧ (SSE_data.map Prod.fst).Nodup
    ∧ (JPX_data.map Prod.fst).Nodup := by
  refine ⟨?_, ?_, ?_, ?_, ?_⟩ <;> decide

/-- C9: the two derived indexes of any constructed calendar agree:
`is_holiday(d)` is true iff some entry of the concatenated per-year lists
(equivalently, of the `holidays` property) carries date `d`. -/
theorem claim_C9 (D : List (Date × String)) (d : Date) :
    ((initExchange D).is_holiday d = true
      ↔ ∃ e ∈ (initExchange D).all_holidays, e.1 = d)
    ∧ ((initExchange D).is_holiday d = true
      ↔ ∃ e ∈ (initExchange D).holidays, e.1 = d) := by
  have hbase : (initExchange D).is_holiday d = true ↔ ∃ e ∈ D, e.1 = d := by
    rw [is_holiday_init]
    exact List.mem_map
  have hmem : ∀ e : Date × String,
      e ∈ (initExchange D).all_holidays ↔ e ∈ D :=
    fun _ => (all_holidays_init_perm D).mem_iff
  have hmem2 : ∀ e : Date × String,
      e ∈ (initExchange D).holidays ↔ e ∈ D :=
    fun _ => (holidays_init_perm D).mem_iff
  refine ⟨hbase.trans ?_, hbase.trans ?_⟩
  · exact ⟨fun ⟨e, he, hd⟩ => ⟨e, (hmem e).mpr he, hd⟩,
      fun ⟨e, he, hd⟩ => ⟨e, (hmem e).mp he, hd⟩⟩
  · exact ⟨fun ⟨e, he, hd⟩ => ⟨e, (hmem2 e).mpr he, hd⟩,
      fun ⟨e, he, hd⟩ => ⟨e, (hmem2 e).mp he, hd⟩⟩

/-- C10: every entry returned by `get_holidays_by_year(Y)` has a date whose
year is `Y`. -/
theorem claim_C10 (D : List (Date × String)) (y : Nat) (e : Date × String)
    (he : e ∈ (initExchange D).get_holidays_by_year y) : e.1.year = y := by
  rw [get_holidays_by_year_init, List.mem_mergeSort] at he
  have hp := List.of_mem_filter he
  simpa using hp

theorem claim_C10_witness :
    (Date.mk 2020 1 1, "New year") ∈ NYSE.get_holidays_by_year 2020
    ∧ (Date.mk 2020 1 1).year = 2020 := by
  have hmem : (Date.mk 2020 1 1, "New year")
      ∈ NYSE.get_holidays_by_year 2020 := by
    show (Date.mk 2020 1 1, "New year")
        ∈ (initExchange NYSE_data).get_holidays_by_year 2020
    rw [get_holidays_by_year_init, List.mem_mergeSort]
    decide
  exact ⟨hmem, claim_C10 NYSE_data 2020 (Date.mk 2020 1 1, "New year") hmem⟩

set_option maxRecDepth 16384 in
/-- C3: for every configured exchange, `get_holidays()` returns all dataset
entries across all years, sorted ascending by date, without duplicates, with
length equal to the dataset size, which is the sum over the years of the
index of the per-year counts. -/
theorem claim_C3 :
    ((Holidays.mk (some NYSE)).get_holidays.Pairwise
        (fun a b => entryLe a b = true)
      ∧ (Holidays.mk (some NYSE)).get_holidays.Nodup
      ∧ (∀ e, e ∈ (Holidays.mk (some NYSE)).get_holidays ↔ e ∈ NYSE_data)
      ∧ (Holidays.mk (some NYSE)).get_holidays.length = NYSE_data.length
      ∧ (Holidays.mk (some NYSE)).get_holidays.length
          = ((NYSE.holidays_by_year.map Prod.fst).map
              (fun y => (NYSE.get_holidays_by_year y).length)).sum)
    ∧ ((Holidays.mk (some CME)).get_holidays.Pairwise
        (fun a b => entryLe a b = true)
      ∧ (Holidays.mk (some CME)).get_holidays.Nodup
      ∧ (∀ e, e ∈ (Holidays.mk (some CME)).get_holidays ↔ e ∈ CME_data)
      ∧ (Holidays.mk (some CME)).get_holidays.length = CME_data.length
      ∧ (Holidays.mk (some CME)).get_holidays.length
          = ((CME.holidays_by_year.map Prod.fst).map
              (fun y => (CME.get_holidays_by_year y).length)).sum)
    ∧ ((Holidays.mk (some B3)).get_holidays.Pairwise
        (fun a b => entryLe a b = true)
      ∧ (Holidays.mk (some B3)).get_holidays.Nodup
      ∧ (∀ e, e ∈ (Holidays.mk (some B3)).get_holidays ↔ e ∈ B3_data)
      ∧ (Holidays.mk (some B3)).get_holidays.length = B3_data.length
      ∧ (Holidays.mk (some B3)).get_holidays.length
          = ((B3.holidays_by_year.map Prod.fst).map
              (fun y => (B3.get_holidays_by_year y).length)).sum)
    ∧ ((Holidays.mk (some SSE)).get_holidays.Pairwise
        (fun a b => entryLe a b = true)
      ∧ (Holidays.mk (some SSE)).get_holidays.Nodup
      ∧ (∀ e, e ∈ (Holidays.mk (some SSE)).get_holidays ↔ e ∈ SSE_data)
      ∧ (Holidays.mk (some SSE)).get_holidays.length = SSE_data.length
      ∧ (Holidays.mk (some SSE)).get_holidays.length
          = ((SSE.holidays_by_year.map Prod.fst).map
              (fun y => (SSE.get_holidays_by_year y).length)).sum)
    ∧ ((Holidays.mk (some JPX)).get_holidays.Pairwise
        (fun a b => entryLe a b = true)
      ∧ (Holidays.mk (some JPX)).get_holidays.Nodup
      ∧ (∀ e, e ∈ (Holidays.mk (some JPX)).get_holidays ↔ e ∈ JPX_data)
      ∧ (Holidays.mk (some JPX)).get_holidays.length = JPX_data.length
      ∧ (Holidays.mk (some JPX)).get_holidays.length
          = ((JPX.holidays_by_year.map Prod.fst).map
              (fun y => (JPX.get_holidays_by_year y).length)).sum) :=
  ⟨getHolidays_init_spec NYSE_data (by decide),
   getHolidays_init_spec CME_data (by decide),
   getHolidays_init_spec B3_data (by decide),
   getHolidays_init_spec SSE_data (by decide),
   getHolidays_init_spec JPX_data (by decide)⟩

/-- C7: the query operations are pure with respect to the calendar: through
the cached wrapper (the only stateful part), a call leaves the two derived
indexes of the calendar unchanged, preserves cache consistency, returns the
uncached result, and a repeated call with the same argument returns the
identical result; `holidays` and `is_holiday` read the unchanged calendar,
so their results also repeat identically. -/
theorem claim_C7 (st : ExchangeWithCache) (y : Nat)
    (h : CacheConsistent st) :
    (getHolidaysByYearCached st y).2.core = st.core
    ∧ CacheConsistent (getHolidaysByYearCached st y).2
    ∧ (getHolidaysByYearCached st y).1 = st.core.get_holidays_by_year y
    ∧ (getHolidaysByYearCached ((getHolidaysByYearCached st y).2) y).1
        = (getHolidaysByYearCached st y).1
    ∧ (getHolidaysByYearCached st y).2.core.holidays = st.core.holidays
    ∧ ∀ d, (getHolidaysByYearCached st y).2.core.is_holiday d
        = st.core.is_holiday d := by
  cases hl : st.cache.lookup y with
  | some v =>
    have hres : getHolidaysByYearCached st y = (v, st) := by
      unfold getHolidaysByYearCached
      rw [hl]
    have hv : v = st.core.get_holidays_by_year y := by
      rcases List.lookup_eq_some_iff.mp hl with ⟨l1, l2, hc, -⟩
      have hmem : (y, v) ∈ st.cache := by
        rw [hc]
        exact List.mem_append_right _ (List.mem_cons_self _ _)
      simpa using h (y, v) hmem
    rw [hres]
    refine ⟨rfl, h, hv, ?_, rfl, fun d => rfl⟩
    show (getHolidaysByYearCached st y).1 = v
    rw [hres]
  | none =>
    have hres : getHolidaysByYearCached st y
        = (st.core.get_holidays_by_year y,
           { core := st.core,
             cache := (y, st.core.get_holidays_by_year y)
               :: st.cache.take 127 }) := by
      unfold getHolidaysByYearCached
      rw [hl]
    rw [hres]
    refine ⟨rfl, ?_, rfl, ?_, rfl, fun d => rfl⟩
    · intro p hp
      rcases List.mem_cons.mp hp with rfl | hp'
      · rfl
      · exact h p (List.take_subset _ _ hp')
    · show (getHolidaysByYearCached
          { core := st.core,
            cache := (y, st.core.get_holidays_by_year y)
              :: st.cache.take 127 } y).1
        = st.core.get_holidays_by_year y
      unfold getHolidaysByYearCached
      rw [List.lookup_cons_self]

theorem claim_C7_witness :
    CacheConsistent ⟨NYSE, []⟩
    ∧ ((getHolidaysByYearCached ⟨NYSE, []⟩ 2020).2.core = NYSE
      ∧ CacheConsistent (getHolidaysByYearCached ⟨NYSE, []⟩ 2020).2
      ∧ (getHolidaysByYearCached ⟨NYSE, []⟩ 2020).1
          = NYSE.get_holidays_by_year 2020
      ∧ (getHolidaysByYearCached ((getHolidaysByYearCached ⟨NYSE, []⟩ 2020).2)
            2020).1
          = (getHolidaysByYearCached ⟨NYSE, []⟩ 2020).1
      ∧ (getHolidaysByYearCached ⟨NYSE, []⟩ 2020).2.core.holidays
          = NYSE.holidays
      ∧ ∀ d, (getHolidaysByYearCached ⟨NYSE, []⟩ 2020).2.core.is_holiday d
          = NYSE.is_holiday d) :=
  ⟨fun p hp => absurd hp (List.not_mem_nil p),
   claim_C7 ⟨NYSE, []⟩ 2020 (fun p hp => absurd hp (List.not_mem_nil p))⟩

/-- C8: the NYSE and CME literal datasets are identical, so the two
calendars are observationally equivalent on all three query methods. -/
theorem claim_C8 :
    NYSE_data = CME_data
    ∧ (∀ d, NYSE.is_holiday d = CME.is_holiday d)
    ∧ (∀ y, NYSE.get_holidays_by_year y = CME.get_holidays_by_year y)
    ∧ NYSE.holidays = CME.holidays := by
  have h : NYSE = CME := rfl
  exact ⟨rfl, fun d => by rw [h], fun y => by rw [h], by rw [h]⟩
